import Mathlib

/-!
Verification of the booking-window date resolution and calendar-export logic
of `src/web/src/calendarUtils.js` (the `BookingWindowResolver` core).

Shallow embedding conventions:
* A JavaScript `Date` holding a local midnight is represented by its
  proleptic-Gregorian day number (an `Int`; day 1 is 0001-01-01).
  An *Invalid Date* (NaN time value) is represented by `none` in
  `Option Int`: every comparison against it is false in JS, and it
  propagates through date arithmetic, exactly as `none` does here.
* `new Date(year, month, day)` month/day out-of-range normalization is
  modelled by plain day-count arithmetic (`jsMakeDate`), including the
  two-digit-year quirk of the constructor (`jsDateCtor`).
* `Number(s)` is modelled on the unsigned-decimal fragment the repository
  exercises: a nonempty all-digit string parses, anything else is NaN
  (`none`).  (`String.toNat?` has exactly this behaviour.)
-/

namespace CalendarUtils

/-- Proleptic Gregorian leap-year test, as used by the JS `Date` object. -/
def isLeap (y : Int) : Bool :=
  Int.emod y 4 == 0 && (Int.emod y 100 != 0 || Int.emod y 400 == 0)

/-- Days in the months strictly before 1-based month `m` of year `y`
(for `m` between 1 and 12). -/
def daysBeforeMonth (y : Int) (m : Nat) : Nat :=
  (match m with
   | 1 => 0 | 2 => 31 | 3 => 59 | 4 => 90 | 5 => 120 | 6 => 151
   | 7 => 181 | 8 => 212 | 9 => 243 | 10 => 273 | 11 => 304 | 12 => 334
   | _ => 0)
  + (if 3 ≤ m ∧ isLeap y then 1 else 0)

/-- Day count of January 1 of year `y`, minus one: day number of the last
day of year `y - 1`, with day 1 = 0001-01-01 (floor division makes this
correct for every integer year). -/
def daysBeforeYear (y : Int) : Int :=
  365 * (y - 1) + Int.fdiv (y - 1) 4 - Int.fdiv (y - 1) 100 + Int.fdiv (y - 1) 400

/-- Day number of the civil date `y-m-d` (`m` 1-based between 1 and 12;
`d` is any integer, so out-of-range days roll over exactly as a JS
`Date` normalizes them / as `setDate` arithmetic behaves). -/
def mkDayNumber (y : Int) (m : Nat) (d : Int) : Int :=
  daysBeforeYear y + (daysBeforeMonth y m : Int) + d

/-- `new Date(y, m0, d)` for an arbitrary integer 0-based month `m0`:
months out of range roll the year (floor division / Euclidean remainder),
days out of range roll via day-count addition. -/
def jsMakeDate (y m0 d : Int) : Int :=
  mkDayNumber (y + Int.fdiv m0 12) ((Int.emod m0 12).toNat + 1) d

/-- The `new Date(year, month, day)` constructor: years 0–99 are
interpreted as 1900–1999 (the JS two-digit-year quirk). -/
def jsDateCtor (y m0 d : Int) : Int :=
  jsMakeDate (if 0 ≤ y ∧ y ≤ 99 then y + 1900 else y) m0 d

/-- The local calendar fields a JS `Date` exposes: `getFullYear`,
`getMonth` (0-based), `getDate`. -/
structure JSDateFields where
  year : Int
  monthIdx : Nat
  day : Nat
  deriving Repr, DecidableEq

/-- Civil date from a day number (inverse of `mkDayNumber` on valid
dates); standard era-based Gregorian conversion. -/
def civilFromDays (z : Int) : JSDateFields :=
  let n : Int := z + 305
  let era : Int := Int.fdiv n 146097
  let doe : Nat := (n - era * 146097).toNat
  let yoe : Nat := (doe - doe / 1460 + doe / 36524 - doe / 146096) / 365
  let y : Int := (yoe : Int) + era * 400
  let doy : Nat := doe - (365 * yoe + yoe / 4 - yoe / 100)
  let mp : Nat := (5 * doy + 2) / 153
  let d : Nat := doy - (153 * mp + 2) / 5 + 1
  let m : Nat := if mp < 10 then mp + 3 else mp - 9
  ⟨if m ≤ 2 then y + 1 else y, m - 1, d⟩

/-- "Today", as produced by `new Date()` with `setHours(0,0,0,0)`:
a valid local civil date (year as reported by `getFullYear`). -/
structure CivilDate where
  year : Int
  month : Nat
  day : Nat
  deriving Repr, DecidableEq

def CivilDate.toDayNumber (t : CivilDate) : Int :=
  mkDayNumber t.year t.month (t.day : Int)

/-- `str.split(sep)` for a one-character separator, on the character
list: splitting the empty string gives `[""]`, a separator at either end
gives an empty part, exactly as in JS. -/
def splitCharList (sep : Char) : List Char → List (List Char)
  | [] => [[]]
  | c :: rest =>
      if c = sep then [] :: splitCharList sep rest
      else
        match splitCharList sep rest with
        | h :: t => (c :: h) :: t
        | [] => [[c]]

/-- `str.split(sep)` for a one-character separator. -/
def jsSplit (s : String) (sep : Char) : List String :=
  (splitCharList sep s.data).map String.mk

/-- `Number(s)` on the unsigned-decimal fragment the repository
exercises: a nonempty all-digit string yields its value, anything else
is NaN (`none`). -/
def jsToNumber (s : String) : Option Nat :=
  if s.data ≠ [] ∧ s.data.all Char.isDigit then
    some (s.data.foldl (fun n c => 10 * n + (c.toNat - 48)) 0)
  else none

/-- `s.split('-').map(Number)` followed by destructuring the first two
elements: extra parts are ignored; a missing or NaN part leaves a NaN
field, which poisons every subsequently constructed `Date`. -/
def parseMMDD (s : String) : Option (Nat × Nat) :=
  match (jsSplit s (Char.ofNat 45)).map jsToNumber with
  | some a :: some b :: _ => some (a, b)
  | _ => none

/-- An availability window record as consumed by `calendarUtils.js`
(`booking_advance_days` may be absent/null, modelled by `none`). -/
structure Window where
  start : String
  «end» : String
  booking_advance_days : Option Nat
  deriving Repr, DecidableEq

/-- `w.booking_advance_days || 0` — absent, `null` and `0` are all falsy. -/
def advanceOf (w : Window) : Nat :=
  w.booking_advance_days.getD 0

/-- `w.booking_advance_days > 0` — comparison with `null`/`undefined` is false. -/
def hasAdvance (w : Window) : Bool :=
  match w.booking_advance_days with
  | some n => decide (0 < n)
  | none => false

structure Campsite where
  name : String
  official_url : Option String
  deriving Repr, DecidableEq

/-- `resolveBookingOpenDate(w)` from `calendarUtils.js`, with the ambient
clock made explicit: `today` is the current date truncated to midnight.
The `for` loop runs over `today.getFullYear()` and `today.getFullYear()+1`
in that order, returning the first candidate `seasonStart − advance` that
is `≥ today`; the unconditional fallback recomputes the next-year
candidate.  A window whose `start` does not parse yields NaN month/day:
every constructed `Date` is then Invalid, every `>=` comparison is false,
and the fallback returns an Invalid Date (`none`) — no exception is
thrown anywhere on that path. -/
def resolveBookingOpenDate (w : Window) (today : CivilDate) : Option Int :=
  match parseMMDD w.start with
  | none => none
  | some (sm, sd) =>
      let advance : Int := (advanceOf w : Int)
      let t : Int := today.toDayNumber
      let bookingOpen0 : Int := jsDateCtor today.year ((sm : Int) - 1) (sd : Int) - advance
      if t ≤ bookingOpen0 then some bookingOpen0
      else
        let bookingOpen1 : Int := jsDateCtor (today.year + 1) ((sm : Int) - 1) (sd : Int) - advance
        if t ≤ bookingOpen1 then some bookingOpen1
        else some (jsDateCtor (today.year + 1) ((sm : Int) - 1) (sd : Int) - advance)

/-- `String(n).padStart(2, '0')` for a non-negative integer. -/
def pad2 (n : Nat) : String :=
  if n < 10 then "0" ++ toString n else toString n

/-- `fmtDate(date)` — `${getFullYear()}${pad(getMonth()+1)}${pad(getDate())}`.
On an Invalid Date every field is NaN and `String(NaN).padStart(2,'0')`
is `"NaN"`, so the result is `"NaNNaNNaN"`. -/
def fmtDate (d : Option JSDateFields) : String :=
  match d with
  | some f => toString f.year ++ pad2 (f.monthIdx + 1) ++ pad2 f.day
  | none => "NaNNaNNaN"

/-- Short month name (`toLocaleDateString` with `month: 'short'` in the
en-US locale the repository's tests pin down: "May 1", "Dec 31"). -/
def monthAbbrev (m : Nat) : String :=
  match m with
  | 1 => "Jan" | 2 => "Feb" | 3 => "Mar" | 4 => "Apr" | 5 => "May" | 6 => "Jun"
  | 7 => "Jul" | 8 => "Aug" | 9 => "Sep" | 10 => "Oct" | 11 => "Nov" | 12 => "Dec"
  | _ => ""

/-- `formatWindowDate(mmdd)` — builds `new Date(2000, month-1, day)` and
renders short month plus unpadded day; an unparseable string yields an
Invalid Date, which `toLocaleDateString` renders as "Invalid Date". -/
def formatWindowDate (mmdd : String) : String :=
  match parseMMDD mmdd with
  | some (m, d) => monthAbbrev m ++ " " ++ toString d
  | none => "Invalid Date"

/-- Hexadecimal digit, uppercase (as `encodeURIComponent` produces). -/
def hexDigit (n : Nat) : Char :=
  if n < 10 then Char.ofNat (48 + n) else Char.ofNat (55 + n)

/-- A percent-escaped byte, e.g. `%E2`. -/
def byteEsc (b : Nat) : String :=
  "%" ++ String.singleton (hexDigit (b / 16)) ++ String.singleton (hexDigit (b % 16))

/-- UTF-8 bytes of a character (scalar values only, which is all a Lean
`Char` can hold). -/
def utf8Bytes (c : Char) : List Nat :=
  let n := c.toNat
  if n < 128 then [n]
  else if n < 2048 then [192 + n / 64, 128 + n % 64]
  else if n < 65536 then [224 + n / 4096, 128 + (n / 64) % 64, 128 + n % 64]
  else [240 + n / 262144, 128 + (n / 4096) % 64, 128 + (n / 64) % 64, 128 + n % 64]

/-- The characters `encodeURIComponent` leaves unescaped: ASCII letters,
digits, and hyphen, underscore, dot, bang, tilde, star, single quote,
parentheses (code points 45 95 46 33 126 42 39 40 41). -/
def isURIUnreserved (c : Char) : Bool :=
  c.isAlpha || c.isDigit || [45, 95, 46, 33, 126, 42, 39, 40, 41].contains c.toNat

/-- `encodeURIComponent(s)`: unreserved characters pass through, every
other character becomes the percent-escapes of its UTF-8 bytes. -/
def encodeURIComponent (s : String) : String :=
  String.join (s.data.map fun c =>
    if isURIUnreserved c then String.singleton c
    else String.join ((utf8Bytes c).map byteEsc))

/-- Does `pat` occur as a contiguous run starting at some suffix of `s`?
(Helper for `strContains`.) -/
def infixOfAux (pat : List Char) : List Char → Bool
  | [] => pat.isPrefixOf []
  | c :: rest => pat.isPrefixOf (c :: rest) || infixOfAux pat rest

/-- Substring containment (specification-side gadget for stating the
URL scenario checks). -/
def strContains (s pat : String) : Bool :=
  infixOfAux pat.data s.data

/-- `s.replace(/,/g, '\\,')` — every comma becomes backslash-comma
(code points 92, 44). -/
def escapeCommas (s : String) : String :=
  String.mk (s.data.foldr
    (fun c acc => if c = Char.ofNat 44 then Char.ofNat 92 :: Char.ofNat 44 :: acc else c :: acc)
    [])

/-- `${w.booking_advance_days}` — JS string interpolation of the raw field
(`null` prints as "null"). -/
def jsNumField (w : Window) : String :=
  match w.booking_advance_days with
  | some n => toString n
  | none => "null"

/-- The `title` local of `buildCalendarUrl`. -/
def urlTitle (c : Campsite) (w : Window) : String :=
  if hasAdvance w then "Book " ++ c.name ++ " (reservations open)"
  else c.name ++ " season opens"

/-- The `seasonRange` local of `buildCalendarUrl` (and, identically, of
`generateWindowICS`). -/
def seasonRange (w : Window) : String :=
  if w.start = "01-01" ∧ w.«end» = "12-31" then "year-round"
  else formatWindowDate w.start ++ " – " ++ formatWindowDate w.«end»

/-- The first entry of the `details` array of `buildCalendarUrl`. -/
def urlMain (c : Campsite) (w : Window) : String :=
  if hasAdvance w then
    "Reservations open today — " ++ jsNumField w ++ " days before the "
      ++ seasonRange w ++ " season."
  else c.name ++ " opens for the " ++ seasonRange w ++ " season."

/-- The `details` array after `.filter(Boolean)` (empty strings are falsy). -/
def urlDetailsList (c : Campsite) (w : Window) : List String :=
  [urlMain c w,
   match c.official_url with
   | some u => "Info: " ++ u
   | none => ""].filter (fun s => s ≠ "")

/-- The `details` local of `buildCalendarUrl`: filtered entries joined
with a newline. -/
def urlDetails (c : Campsite) (w : Window) : String :=
  String.intercalate "\n" (urlDetailsList c w)

/-- `buildCalendarUrl(campsite, w)` with the ambient clock explicit. -/
def buildCalendarUrl (c : Campsite) (w : Window) (today : CivilDate) : String :=
  let bookingOpen := resolveBookingOpenDate w today
  let nextDay := bookingOpen.map (· + 1)
  "https://www.google.com/calendar/render?action=TEMPLATE&text="
    ++ encodeURIComponent (urlTitle c w)
    ++ "&dates=" ++ fmtDate (bookingOpen.map civilFromDays)
    ++ "/" ++ fmtDate (nextDay.map civilFromDays)
    ++ "&details=" ++ encodeURIComponent (urlDetails c w)

/-- The `summary` local of `generateWindowICS` (textually the same
expression as `buildCalendarUrl`'s `title`). -/
def icsSummary (c : Campsite) (w : Window) : String :=
  if hasAdvance w then "Book " ++ c.name ++ " (reservations open)"
  else c.name ++ " season opens"

/-- The `desc` local of `generateWindowICS`: the single descriptive
sentence (no `Info:` entry) with commas escaped. -/
def icsDesc (c : Campsite) (w : Window) : String :=
  escapeCommas
    (if hasAdvance w then
      "Reservations open today — " ++ jsNumField w ++ " days before the "
        ++ seasonRange w ++ " season."
     else c.name ++ " opens for the " ++ seasonRange w ++ " season.")

/-- The `icsContent` array of lines after `.filter(Boolean)` (before the
CRLF join): the `URL:` entry is the empty string, hence dropped, when
`official_url` is absent. -/
def icsLines (c : Campsite) (w : Window) (today : CivilDate) : List String :=
  let bookingOpen := resolveBookingOpenDate w today
  let nextDay := bookingOpen.map (· + 1)
  ["BEGIN:VCALENDAR",
   "VERSION:2.0",
   "BEGIN:VEVENT",
   "DTSTART;VALUE=DATE:" ++ fmtDate (bookingOpen.map civilFromDays),
   "DTEND;VALUE=DATE:" ++ fmtDate (nextDay.map civilFromDays),
   "SUMMARY:" ++ escapeCommas (icsSummary c w),
   "DESCRIPTION:" ++ icsDesc c w,
   (match c.official_url with
    | some u => "URL:" ++ u
    | none => ""),
   "END:VEVENT",
   "END:VCALENDAR"].filter (fun s => s ≠ "")

/-- The full iCalendar text, CRLF-joined. -/
def icsContent (c : Campsite) (w : Window) (today : CivilDate) : String :=
  String.intercalate "\r\n" (icsLines c w today)

/-- The browser-level side effects `generateWindowICS` performs after
building `icsContent`, in source order. -/
inductive ICSAction where
  | createObjectURL
  | appendChild
  | click
  | removeChild
  | revokeObjectURL
  deriving Repr, DecidableEq

/-- The straight-line statement sequence at the end of
`generateWindowICS` (there is no `try`/`finally` around any of it). -/
def icsEffectSteps : List ICSAction :=
  [.createObjectURL, .appendChild, .click, .removeChild, .revokeObjectURL]

/-- Run a straight-line statement list under JS exception semantics with
no handler in scope: a throwing statement aborts the rest of the
function.  Returns the statements that actually executed and whether the
function completed normally. -/
def runSeq (throws : ICSAction → Bool) : List ICSAction → List ICSAction × Bool
  | [] => ([], true)
  | a :: rest =>
      if throws a then ([a], false)
      else
        let r := runSeq throws rest
        (a :: r.1, r.2)

/-- The effect trace of `generateWindowICS`, given which browser calls
throw. -/
def generateWindowICSRun (throws : ICSAction → Bool) : List ICSAction × Bool :=
  runSeq throws icsEffectSteps

/-! ### Helper lemmas -/

lemma data_append (a b : String) : (a ++ b).data = a.data ++ b.data := rfl

lemma str_length_append (a b : String) : (a ++ b).length = a.length + b.length :=
  List.length_append a.data b.data

lemma data_eq_nil_iff (s : String) : s = "" ↔ s.data = [] := by
  cases s with
  | mk d =>
      constructor
      · intro h
        rw [h]
      · intro h
        rw [show d = [] from h]

lemma append_ne_empty_left (a b : String) (h : a ≠ "") : a ++ b ≠ "" := by
  intro he
  apply h
  rw [data_eq_nil_iff] at he ⊢
  rw [data_append] at he
  exact (List.append_eq_nil.mp he).1

lemma append_ne_empty_right (a b : String) (h : b ≠ "") : a ++ b ≠ "" := by
  intro he
  apply h
  rw [data_eq_nil_iff] at he ⊢
  rw [data_append] at he
  exact (List.append_eq_nil.mp he).2

lemma urlMain_ne_empty (c : Campsite) (w : Window) : urlMain c w ≠ "" := by
  unfold urlMain
  split
  · exact append_ne_empty_right _ _ (by decide)
  · exact append_ne_empty_right _ _ (by decide)

/-- `filter(Boolean)` keeps a nonempty entry. -/
lemma filter_keep (a : String) (l : List String) (h : a ≠ "") :
    (a :: l).filter (fun s => s ≠ "") = a :: l.filter (fun s => s ≠ "") := by
  rw [List.filter_cons]
  simp [h]

/-- `filter(Boolean)` drops an empty entry. -/
lemma filter_drop_empty (l : List String) :
    (("" : String) :: l).filter (fun s => s ≠ "") = l.filter (fun s => s ≠ "") := by
  rw [List.filter_cons]
  simp

/-- With no `official_url`, the `Info:` entry is the empty string, is
filtered out, and `details` is just the descriptive sentence. -/
lemma urlDetails_none (c : Campsite) (w : Window) (h : c.official_url = none) :
    urlDetails c w = urlMain c w := by
  have hm := urlMain_ne_empty c w
  simp only [urlDetails, urlDetailsList, h]
  rw [filter_keep _ _ hm, filter_drop_empty]
  rfl

/-- The ICS `DESCRIPTION` payload is the comma-escaped descriptive
sentence of the URL export (the two functions duplicate the
expression). -/
lemma icsDesc_eq_escaped_urlMain (c : Campsite) (w : Window) :
    icsDesc c w = escapeCommas (urlMain c w) := by
  unfold icsDesc urlMain
  rfl

/-- The `new Date(year, month-1, day)` constructor agrees with the plain
civil-date day number for a real (≥ 100) year and an in-range month. -/
lemma jsDateCtor_valid (y : Int) (hy : 100 ≤ y) (sm : Nat) (h1 : 1 ≤ sm) (h2 : sm ≤ 12)
    (sd : Int) : jsDateCtor y ((sm : Int) - 1) sd = mkDayNumber y sm sd := by
  have hnot : ¬ (0 ≤ y ∧ y ≤ 99) := by omega
  have hf : Int.fdiv ((sm : Int) - 1) 12 = 0 := by interval_cases sm <;> decide
  have hm : (Int.emod ((sm : Int) - 1) 12).toNat + 1 = sm := by interval_cases sm <;> decide
  unfold jsDateCtor jsMakeDate
  rw [if_neg hnot, hf, hm, add_zero]

/-- For a window whose `start` parses to an in-range month, the resolver
computes exactly the two civil-date candidates and takes the first one
not before today, with the unconditional next-year fallback. -/
lemma resolveBookingOpenDate_valid (w : Window) (today : CivilDate) (sm sd : Nat)
    (hp : parseMMDD w.start = some (sm, sd)) (h1 : 1 ≤ sm) (h2 : sm ≤ 12)
    (hy : 100 ≤ today.year) :
    resolveBookingOpenDate w today =
      if today.toDayNumber ≤ mkDayNumber today.year sm (sd : Int) - (advanceOf w : Int) then
        some (mkDayNumber today.year sm (sd : Int) - (advanceOf w : Int))
      else if today.toDayNumber ≤ mkDayNumber (today.year + 1) sm (sd : Int) - (advanceOf w : Int) then
        some (mkDayNumber (today.year + 1) sm (sd : Int) - (advanceOf w : Int))
      else some (mkDayNumber (today.year + 1) sm (sd : Int) - (advanceOf w : Int)) := by
  have e1 := jsDateCtor_valid today.year hy sm h1 h2 (sd : Int)
  have e2 := jsDateCtor_valid (today.year + 1) (by omega) sm h1 h2 (sd : Int)
  simp only [resolveBookingOpenDate, hp, e1, e2]

lemma digitChar_isDigit (k : Nat) (h : k < 10) : (Nat.digitChar k).isDigit = true := by
  interval_cases k <;> decide

/-- Every character `Nat.toDigitsCore` emits is a decimal digit. -/
lemma toDigitsCore_all_digits (fuel : Nat) : ∀ (n : Nat) (ds : List Char),
    (∀ c ∈ ds, c.isDigit = true) →
    ∀ c ∈ Nat.toDigitsCore 10 fuel n ds, c.isDigit = true := by
  induction fuel with
  | zero =>
      intro n ds hds
      simpa [Nat.toDigitsCore] using hds
  | succ f ih =>
      intro n ds hds c hc
      simp only [Nat.toDigitsCore] at hc
      have hd : (Nat.digitChar (n % 10)).isDigit = true :=
        digitChar_isDigit _ (Nat.mod_lt _ (by norm_num))
      by_cases h0 : n / 10 = 0
      · rw [if_pos h0] at hc
        rcases List.mem_cons.mp hc with rfl | hmem
        · exact hd
        · exact hds c hmem
      · rw [if_neg h0] at hc
        refine ih (n / 10) (Nat.digitChar (n % 10) :: ds) ?_ c hc
        intro c2 hc2
        rcases List.mem_cons.mp hc2 with rfl | hmem
        · exact hd
        · exact hds c2 hmem

/-- With enough fuel, `Nat.toDigitsCore` emits exactly `log₁₀ n + 1`
characters in front of the accumulator. -/
lemma toDigitsCore_len (fuel : Nat) : ∀ (n : Nat) (ds : List Char), n < fuel →
    (Nat.toDigitsCore 10 fuel n ds).length = Nat.log 10 n + 1 + ds.length := by
  induction fuel with
  | zero =>
      intro n ds h
      exact absurd h (Nat.not_lt_zero n)
  | succ f ih =>
      intro n ds h
      simp only [Nat.toDigitsCore]
      by_cases h0 : n / 10 = 0
      · rw [if_pos h0]
        have hlog : Nat.log 10 n = 0 := Nat.log_eq_zero_iff.mpr (Or.inl (by omega))
        simp [hlog]
        omega
      · rw [if_neg h0]
        have hlt : n / 10 < f := by omega
        rw [ih (n / 10) _ hlt]
        have l1 : Nat.log 10 (n / 10) = Nat.log 10 n - 1 := Nat.log_div_base 10 n
        have l2 : 0 < Nat.log 10 n := Nat.log_pos (by norm_num) (by omega)
        simp only [List.length_cons]
        omega

lemma natRepr_four (n : Nat) (h1 : 1000 ≤ n) (h2 : n ≤ 9999) :
    (Nat.repr n).length = 4 ∧ (Nat.repr n).data.all Char.isDigit = true := by
  have hlog : Nat.log 10 n = 3 :=
    Nat.log_eq_of_pow_le_of_lt_pow (by norm_num; omega) (by norm_num; omega)
  constructor
  · show (Nat.toDigitsCore 10 (n + 1) n []).length = 4
    rw [toDigitsCore_len (n + 1) n [] (Nat.lt_succ_self n)]
    simp [hlog]
  · show (Nat.toDigits 10 n).all Char.isDigit = true
    rw [List.all_eq_true]
    intro c hc
    exact toDigitsCore_all_digits (n + 1) n [] (by simp) c hc

lemma pad2_range_bool : ((List.range 100).all fun n =>
    (pad2 n).length == 2 && (pad2 n).data.all Char.isDigit) = true := by
  decide

lemma pad2_prop (n : Nat) (h : n ≤ 99) :
    (pad2 n).length = 2 ∧ (pad2 n).data.all Char.isDigit = true := by
  have hb := pad2_range_bool
  rw [List.all_eq_true] at hb
  have := hb n (List.mem_range.mpr (by omega))
  simp only [Bool.and_eq_true, beq_iff_eq] at this
  exact this

/-! ### Claim theorems -/

/-- C1: for every availability window whose `start` parses to an in-range
month and every today (a real-calendar year, truncated to midnight),
`resolveBookingOpenDate` examines `today.year` and `today.year + 1` in
increasing order, forms the candidate season start minus `advance` days
(`advance` = `booking_advance_days` if present and truthy, else 0), and
returns the first candidate on or after today, stopping at the first
match; a candidate exactly equal to today is returned as-is. -/
theorem resolve_first_candidate (w : Window) (today : CivilDate) (sm sd : Nat)
    (hp : parseMMDD w.start = some (sm, sd)) (h1 : 1 ≤ sm) (h2 : sm ≤ 12)
    (hy : 100 ≤ today.year) :
    (today.toDayNumber ≤ mkDayNumber today.year sm (sd : Int) - (advanceOf w : Int) →
       resolveBookingOpenDate w today
         = some (mkDayNumber today.year sm (sd : Int) - (advanceOf w : Int)))
    ∧ (mkDayNumber today.year sm (sd : Int) - (advanceOf w : Int) < today.toDayNumber →
       today.toDayNumber ≤ mkDayNumber (today.year + 1) sm (sd : Int) - (advanceOf w : Int) →
       resolveBookingOpenDate w today
         = some (mkDayNumber (today.year + 1) sm (sd : Int) - (advanceOf w : Int)))
    ∧ (mkDayNumber today.year sm (sd : Int) - (advanceOf w : Int) = today.toDayNumber →
       resolveBookingOpenDate w today = some today.toDayNumber) := by
  have hres := resolveBookingOpenDate_valid w today sm sd hp h1 h2 hy
  refine ⟨?_, ?_, ?_⟩
  · intro h
    rw [hres, if_pos h]
  · intro hlt hle
    rw [hres, if_neg (by omega), if_pos hle]
  · intro heq
    rw [hres, if_pos (le_of_eq heq.symm), heq]

/-- Witness for C1: the 30-day-advance November window at today =
2026-06-15 resolves to 2026-10-02, the current-year candidate. -/
theorem resolve_first_candidate_check :
    resolveBookingOpenDate ⟨"11-01", "11-30", some 30⟩ ⟨2026, 6, 15⟩
      = some (mkDayNumber 2026 11 (1 : Int) - (advanceOf ⟨"11-01", "11-30", some 30⟩ : Int)) :=
  (resolve_first_candidate ⟨"11-01", "11-30", some 30⟩ ⟨2026, 6, 15⟩ 11 1
    (by decide) (by decide) (by decide) (by decide)).1 (by decide)

/-- C2 counterexample: at today = 2026-12-31 with the window
`{start: "01-01", end: "06-30", bookingAdvanceDays: 30}` the current-year
candidate (2025-12-02) is before today, the resolver indeed returns the
following year's candidate (2026-12-02), but that date is itself strictly
before today — refuting the claim that the returned date must be
`≥ today`. -/
theorem resolve_rollover_counterexample :
    (mkDayNumber 2026 1 (1 : Int) - 30 < CivilDate.toDayNumber ⟨2026, 12, 31⟩)
    ∧ resolveBookingOpenDate ⟨"01-01", "06-30", some 30⟩ ⟨2026, 12, 31⟩
        = some (mkDayNumber 2027 1 (1 : Int) - 30)
    ∧ (mkDayNumber 2027 1 (1 : Int) - 30 < CivilDate.toDayNumber ⟨2026, 12, 31⟩) := by
  decide

/-- C2 (amended): for every window whose current-year candidate is
strictly before today, `resolveBookingOpenDate` returns the following
year's candidate; that returned date is however not always `≥ today`
(see the counterexample). -/
theorem resolve_rollover_next_year (w : Window) (today : CivilDate) (sm sd : Nat)
    (hp : parseMMDD w.start = some (sm, sd)) (h1 : 1 ≤ sm) (h2 : sm ≤ 12)
    (hy : 100 ≤ today.year)
    (hlt : mkDayNumber today.year sm (sd : Int) - (advanceOf w : Int) < today.toDayNumber) :
    resolveBookingOpenDate w today
      = some (mkDayNumber (today.year + 1) sm (sd : Int) - (advanceOf w : Int)) := by
  rw [resolveBookingOpenDate_valid w today sm sd hp h1 h2 hy, if_neg (by omega)]
  split <;> rfl

/-- Witness for the amended C2, at the counterexample's input. -/
theorem resolve_rollover_next_year_check :
    resolveBookingOpenDate ⟨"01-01", "06-30", some 30⟩ ⟨2026, 12, 31⟩
      = some (mkDayNumber 2027 1 (1 : Int) - (advanceOf ⟨"01-01", "06-30", some 30⟩ : Int)) :=
  resolve_rollover_next_year ⟨"01-01", "06-30", some 30⟩ ⟨2026, 12, 31⟩ 1 1
    (by decide) (by decide) (by decide) (by decide) (by decide)

/-- C3: a malformed `start` ("05-XX" does not parse into two integers)
does NOT make `resolveBookingOpenDate` throw: in JS, `Number` yields
`NaN`, every constructed `Date` is an Invalid Date, both `>=` comparisons
are false, and the fallback RETURNS the Invalid Date (modelled `none`)
normally — the malformed input is silently coerced, contradicting the
fail-fast contract the specification states. -/
theorem resolve_malformed_start_silent :
    resolveBookingOpenDate ⟨"05-XX", "10-31", some 5⟩ ⟨2026, 6, 15⟩ = none := by
  decide

/-- C4 counterexample: with `officialUrl` present, the iCalendar
`DESCRIPTION` is NOT the comma-escaped `details` string of
`buildCalendarUrl` — the `details` string carries an extra
`Info: <url>` line that `generateWindowICS` routes to the separate
`URL:` property instead. -/
theorem ics_description_omits_info_line :
    ¬ (icsDesc ⟨"A", some "http://x"⟩ ⟨"11-01", "11-30", some 30⟩
        = escapeCommas (urlDetails ⟨"A", some "http://x"⟩ ⟨"11-01", "11-30", some 30⟩)) := by
  decide

/-- C4 (amended): the ICS `SUMMARY` always equals `buildCalendarUrl`'s
title with commas escaped; the ICS `DESCRIPTION` equals the comma-escaped
descriptive sentence (the `details` string without its `Info:` line);
when `officialUrl` is absent the `DESCRIPTION` therefore equals the
comma-escaped `details` exactly. -/
theorem ics_fields_match_escaped (c : Campsite) (w : Window) :
    escapeCommas (icsSummary c w) = escapeCommas (urlTitle c w)
    ∧ icsDesc c w = escapeCommas (urlMain c w)
    ∧ (c.official_url = none → icsDesc c w = escapeCommas (urlDetails c w)) := by
  refine ⟨rfl, icsDesc_eq_escaped_urlMain c w, fun h => ?_⟩
  rw [urlDetails_none c w h]
  exact icsDesc_eq_escaped_urlMain c w

/-- Witness for the amended C4: with no `officialUrl` the `DESCRIPTION`
coincides with the escaped `details`. -/
theorem ics_fields_match_escaped_check :
    icsDesc ⟨"A", none⟩ ⟨"11-01", "11-30", some 30⟩
      = escapeCommas (urlDetails ⟨"A", none⟩ ⟨"11-01", "11-30", some 30⟩) :=
  (ics_fields_match_escaped ⟨"A", none⟩ ⟨"11-01", "11-30", some 30⟩).2.2 rfl

/-- C5: with today = 2026-06-15, the window
`{start: "05-01", end: "10-31", bookingAdvanceDays: 180}` resolves to
exactly 2026-11-02: the current year's candidate (2026-05-01 − 180 days =
2025-11-02) is in the past, and the 2027 season's advance date
(2027-05-01 − 180 days) lands on 2026-11-02. -/
theorem resolve_scenario_rolls_within_year :
    (mkDayNumber 2026 5 (1 : Int) - 180 = mkDayNumber 2025 11 (2 : Int))
    ∧ (mkDayNumber 2025 11 (2 : Int) < CivilDate.toDayNumber ⟨2026, 6, 15⟩)
    ∧ (mkDayNumber 2027 5 (1 : Int) - 180 = mkDayNumber 2026 11 (2 : Int))
    ∧ resolveBookingOpenDate ⟨"05-01", "10-31", some 180⟩ ⟨2026, 6, 15⟩
        = some (mkDayNumber 2026 11 (2 : Int)) := by
  decide

/-- C6: `buildCalendarUrl` always returns the fixed template
`https://www.google.com/calendar/render?action=TEMPLATE&text=<enc>`
`&dates=<YYYYMMDD>/<YYYYMMDD>&details=<enc>` (parameter names and order
fixed), and in the 30-day-advance scenario the result contains
`dates=20261002/20261003` and the URL-encoded
"Book Rainier Base Camp (reservations open)". -/
theorem calendar_url_template :
    (∀ (c : Campsite) (w : Window) (today : CivilDate) (z : Int),
        resolveBookingOpenDate w today = some z →
        buildCalendarUrl c w today =
          "https://www.google.com/calendar/render?action=TEMPLATE&text="
            ++ encodeURIComponent (urlTitle c w)
            ++ "&dates=" ++ fmtDate (some (civilFromDays z))
            ++ "/" ++ fmtDate (some (civilFromDays (z + 1)))
            ++ "&details=" ++ encodeURIComponent (urlDetails c w))
    ∧ strContains
        (buildCalendarUrl ⟨"Rainier Base Camp", none⟩ ⟨"11-01", "11-30", some 30⟩ ⟨2026, 6, 15⟩)
        "dates=20261002/20261003" = true
    ∧ strContains
        (buildCalendarUrl ⟨"Rainier Base Camp", none⟩ ⟨"11-01", "11-30", some 30⟩ ⟨2026, 6, 15⟩)
        (encodeURIComponent "Book Rainier Base Camp (reservations open)") = true := by
  refine ⟨?_, by decide, by decide⟩
  intro c w today z h
  simp [buildCalendarUrl, h]

set_option maxRecDepth 8000 in
/-- Witness for C6: the full URL of the scenario, obtained from the
template equality. -/
theorem calendar_url_template_check :
    buildCalendarUrl ⟨"Rainier Base Camp", none⟩ ⟨"11-01", "11-30", some 30⟩ ⟨2026, 6, 15⟩
      = "https://www.google.com/calendar/render?action=TEMPLATE&text=Book%20Rainier%20Base%20Camp%20(reservations%20open)&dates=20261002/20261003&details=Reservations%20open%20today%20%E2%80%94%2030%20days%20before%20the%20Nov%201%20%E2%80%93%20Nov%2030%20season." := by
  rw [calendar_url_template.1 ⟨"Rainier Base Camp", none⟩ ⟨"11-01", "11-30", some 30⟩
    ⟨2026, 6, 15⟩ (mkDayNumber 2026 10 (2 : Int)) (by decide)]
  decide

/-- C7: when `officialUrl` is absent the `details` string of
`buildCalendarUrl` is exactly the descriptive sentence (no `Info:` line)
and the iCalendar line list is exactly the fixed eight-property document
with no `URL:` line; when present, `details` carries the line
`Info: <url>` and the iCalendar carries the line `URL:<url>`, the URL
verbatim. -/
theorem official_url_presence (c : Campsite) (w : Window) (today : CivilDate) :
    (c.official_url = none →
       urlDetails c w = urlMain c w
       ∧ icsLines c w today =
           ["BEGIN:VCALENDAR", "VERSION:2.0", "BEGIN:VEVENT",
            "DTSTART;VALUE=DATE:"
              ++ fmtDate ((resolveBookingOpenDate w today).map civilFromDays),
            "DTEND;VALUE=DATE:"
              ++ fmtDate (((resolveBookingOpenDate w today).map (· + 1)).map civilFromDays),
            "SUMMARY:" ++ escapeCommas (icsSummary c w),
            "DESCRIPTION:" ++ icsDesc c w,
            "END:VEVENT", "END:VCALENDAR"])
    ∧ (∀ u, c.official_url = some u →
        ("Info: " ++ u) ∈ urlDetailsList c w
        ∧ ("URL:" ++ u) ∈ icsLines c w today) := by
  have h1 : ("DTSTART;VALUE=DATE:"
      ++ fmtDate ((resolveBookingOpenDate w today).map civilFromDays)) ≠ "" :=
    append_ne_empty_left _ _ (by decide)
  have h2 : ("DTEND;VALUE=DATE:"
      ++ fmtDate (((resolveBookingOpenDate w today).map (· + 1)).map civilFromDays)) ≠ "" :=
    append_ne_empty_left _ _ (by decide)
  have h3 : ("SUMMARY:" ++ escapeCommas (icsSummary c w)) ≠ "" :=
    append_ne_empty_left _ _ (by decide)
  have h4 : ("DESCRIPTION:" ++ icsDesc c w) ≠ "" :=
    append_ne_empty_left _ _ (by decide)
  constructor
  · intro h
    refine ⟨urlDetails_none c w h, ?_⟩
    simp only [icsLines, h]
    rw [filter_keep _ _ (by decide), filter_keep _ _ (by decide),
      filter_keep _ _ (by decide), filter_keep _ _ h1, filter_keep _ _ h2,
      filter_keep _ _ h3, filter_keep _ _ h4, filter_drop_empty,
      filter_keep _ _ (by decide), filter_keep _ _ (by decide)]
    rfl
  · intro u hu
    have hinfo : ("Info: " ++ u) ≠ "" := append_ne_empty_left _ _ (by decide)
    have hurl : ("URL:" ++ u) ≠ "" := append_ne_empty_left _ _ (by decide)
    constructor
    · simp only [urlDetailsList, hu]
      rw [filter_keep _ _ (urlMain_ne_empty c w), filter_keep _ _ hinfo]
      simp
    · simp only [icsLines, hu]
      rw [filter_keep _ _ (by decide), filter_keep _ _ (by decide),
        filter_keep _ _ (by decide), filter_keep _ _ h1, filter_keep _ _ h2,
        filter_keep _ _ h3, filter_keep _ _ h4, filter_keep _ _ hurl]
      simp

/-- Witness for C7: both halves at concrete inputs. -/
theorem official_url_presence_check :
    urlDetails ⟨"Rainier Base Camp", none⟩ ⟨"11-01", "11-30", some 30⟩
      = urlMain ⟨"Rainier Base Camp", none⟩ ⟨"11-01", "11-30", some 30⟩
    ∧ ("URL:" ++ "https://example.com")
        ∈ icsLines ⟨"Rainier Base Camp", some "https://example.com"⟩
            ⟨"11-01", "11-30", some 30⟩ ⟨2026, 6, 15⟩ :=
  ⟨((official_url_presence ⟨"Rainier Base Camp", none⟩ ⟨"11-01", "11-30", some 30⟩
      ⟨2026, 6, 15⟩).1 rfl).1,
   ((official_url_presence ⟨"Rainier Base Camp", some "https://example.com"⟩
      ⟨"11-01", "11-30", some 30⟩ ⟨2026, 6, 15⟩).2 "https://example.com" rfl).2⟩

/-- C8 counterexample: a `Date` whose `getFullYear()` is 99 (JS dates
reach year 99 via `setFullYear`) formats to the 6-character "990501",
refuting "always exactly 8 characters". -/
theorem fmtDate_two_digit_year :
    (fmtDate (some ⟨99, 4, 1⟩)).length = 6
    ∧ ¬ ((fmtDate (some ⟨99, 4, 1⟩)).length = 8) := by
  decide

/-- C8 (amended): for every valid `Date` whose year is between 1000 and
9999, `fmtDate` returns exactly 8 characters, all decimal digits, in
`YYYYMMDD` form with zero-padded month and day from the date's local
calendar fields. -/
theorem fmtDate_four_digit_year_len (y : Int) (m d : Nat)
    (h1 : 1000 ≤ y) (h2 : y ≤ 9999) (hm : m ≤ 11) (hd : d ≤ 99) :
    (fmtDate (some ⟨y, m, d⟩)).length = 8
    ∧ (fmtDate (some ⟨y, m, d⟩)).data.all Char.isDigit = true := by
  obtain ⟨n, rfl⟩ : ∃ n : Nat, y = (n : Int) :=
    ⟨y.toNat, (Int.toNat_of_nonneg (by omega)).symm⟩
  have hn1 : 1000 ≤ n := by omega
  have hn2 : n ≤ 9999 := by omega
  obtain ⟨hl, hdig⟩ := natRepr_four n hn1 hn2
  obtain ⟨hl2, hdig2⟩ := pad2_prop (m + 1) (by omega)
  obtain ⟨hl3, hdig3⟩ := pad2_prop d hd
  have hrepr : toString ((n : Int)) = Nat.repr n := rfl
  constructor
  · show ((toString ((n : Int)) ++ pad2 (m + 1)) ++ pad2 d).length = 8
    rw [str_length_append, str_length_append, hrepr, hl, hl2, hl3]
  · show (((toString ((n : Int)) ++ pad2 (m + 1)) ++ pad2 d)).data.all Char.isDigit = true
    rw [data_append, data_append, List.all_append, List.all_append, hrepr]
    simp [hdig, hdig2, hdig3]

/-- Witness for the amended C8: 2026-06-15 formats to 8 digits. -/
theorem fmtDate_four_digit_year_len_check :
    (fmtDate (some ⟨2026, 5, 15⟩)).length = 8
    ∧ (fmtDate (some ⟨2026, 5, 15⟩)).data.all Char.isDigit = true :=
  fmtDate_four_digit_year_len 2026 5 15 (by decide) (by decide) (by decide) (by decide)

/-- C9 counterexample: the trailing statements of `generateWindowICS`
(`click(); removeChild(); revokeObjectURL()`) have no `try`/`finally`;
when the click throws, the function aborts and `revokeObjectURL` never
executes — refuting "the release step is executed even if the click
throws". -/
theorem revoke_skipped_when_click_throws :
    (generateWindowICSRun (fun a => a == .click)).2 = false
    ∧ ICSAction.revokeObjectURL ∉ (generateWindowICSRun (fun a => a == .click)).1 := by
  decide

/-- C9 (amended): the object URL is revoked after triggering the save
whenever the preceding browser calls (createObjectURL, appendChild,
click, removeChild) return normally; if the click throws, the revoke
step is skipped (see the counterexample). -/
theorem revoke_on_normal_return (throws : ICSAction → Bool)
    (hc : throws .createObjectURL = false) (ha : throws .appendChild = false)
    (hk : throws .click = false) (hr : throws .removeChild = false) :
    ICSAction.revokeObjectURL ∈ (generateWindowICSRun throws).1 := by
  simp only [generateWindowICSRun, icsEffectSteps, runSeq, hc, ha, hk, hr,
    Bool.false_eq_true, if_false]
  split <;> simp

/-- Witness for the amended C9: with no call throwing, the revoke step
runs. -/
theorem revoke_on_normal_return_check :
    ICSAction.revokeObjectURL ∈ (generateWindowICSRun (fun _ => false)).1 :=
  revoke_on_normal_return (fun _ => false) rfl rfl rfl rfl

/-- C10: the resolved booking-open date depends only on the window's
`start` and `booking_advance_days` fields, never on `end`: two windows
agreeing on those fields resolve identically for every today. -/
theorem resolve_ignores_end (w1 w2 : Window) (today : CivilDate)
    (hs : w1.start = w2.start) (ha : w1.booking_advance_days = w2.booking_advance_days) :
    resolveBookingOpenDate w1 today = resolveBookingOpenDate w2 today := by
  unfold resolveBookingOpenDate advanceOf
  rw [hs, ha]

/-- Witness for C10: a mid-season window and the matching year-round-end
window resolve to the same date. -/
theorem resolve_ignores_end_check :
    resolveBookingOpenDate ⟨"05-01", "10-31", some 180⟩ ⟨2026, 6, 15⟩
      = resolveBookingOpenDate ⟨"05-01", "12-31", some 180⟩ ⟨2026, 6, 15⟩ :=
  resolve_ignores_end ⟨"05-01", "10-31", some 180⟩ ⟨"05-01", "12-31", some 180⟩
    ⟨2026, 6, 15⟩ rfl rfl

end CalendarUtils

